import Mathlib

/-!
A shallow embedding of the auction round engine of `src/AUCTION/Auction.py`
(a Telegram cricket-auction bot).  The program keeps one global mutable
dictionary `auction_data`; we model it as the structure `AuctionState` and
each command handler as a pure state transformer.  Monetary amounts, which
the program stores as Python floats, are modelled as exact rationals; the
single place where the program rounds (`round(purse - bid, 2)` in
`conclude_auction`) is modelled by `round2`, an exact round-half-to-even to
two decimal places.  Telegram I/O (messages, photos, keyboards), CSV/JSON
persistence and the job-queue side of timers are external collaborators; the
scheduling decisions of `start_timer` are captured by `TimerJobs`.
-/

namespace Auction

/-- A lot from the catalog (one CSV row).  The display-only columns
(`id`, `username`, `rating`, `speciality`) do not influence the engine and
are omitted. -/
structure Player where
  name : String
  role : String
  base_price : ℚ
deriving DecidableEq

/-- A roster entry: the `enhanced_player` dict appended to
`team_data["players"]` and to `sold_players` in `conclude_auction`
(`purchase_date`, a wall-clock timestamp, is omitted). -/
structure RosterEntry where
  player : Player
  purchase_price : ℚ
  purchased_by : Option String
  auction_number : Nat
deriving DecidableEq

/-- One value of the `auction_data["teams"]` dict. -/
structure TeamData where
  purse : ℚ
  original_purse : ℚ
  players : List RosterEntry
  captain_id : Option Nat
deriving DecidableEq

/-- One record appended to `auction_data["auction_history"]`
(the wall-clock `timestamp` field is omitted). -/
structure HistoryRecord where
  player : String
  price : ℚ
  team : Option String
  status : String
deriving DecidableEq

/-- The `auction_data["auction_stats"]` dict. -/
structure Stats where
  total_auctions : Nat
  total_amount_spent : ℚ
  highest_bid : ℚ
  most_expensive_player : Option RosterEntry
  average_price : ℚ
deriving DecidableEq

/-- The `auction_data["settings"]` dict. -/
structure Settings where
  timer_duration : Nat
  reminder_time : Nat
  auto_next : Bool
  show_player_photos : Bool
  bidding_increment : ℚ
deriving DecidableEq

/-- The two one-shot jobs scheduled by `start_timer`: the delay (in seconds
from now) of the `timer_reminder` job, when armed, and of the `end_auction`
auto-close job. -/
structure TimerJobs where
  reminder : Option Nat
  autoclose : Nat
deriving DecidableEq

/-- The global `auction_data` dictionary.  `teams` keeps the dict as an
association list in insertion order (Python dicts preserve it and
`register` rejects duplicate names).  `timer` is `some jobs` while the
job-queue holds the round's pending one-shots and `none` after
`reset_timer`; it also stands for the `bidding_timer` deadline field. -/
structure AuctionState where
  is_auction_live : Bool
  current_player : Option Player
  current_bid : ℚ
  highest_bidder_id : Option Nat
  highest_bidder_name : Option String
  teams : List (String × TeamData)
  players : List Player
  available_players : List Player
  sold_players : List RosterEntry
  unsold_players : List Player
  auction_history : List HistoryRecord
  auction_stats : Stats
  settings : Settings
  timer : Option TimerJobs
  timer_reminder_sent : Bool
deriving DecidableEq

/-- The initial `auction_stats` literal (also used by the reset handler). -/
def initialStats : Stats :=
  { total_auctions := 0
    total_amount_spent := 0
    highest_bid := 0
    most_expensive_player := none
    average_price := 0 }

/-- The initial `settings` literal. -/
def initialSettings : Settings :=
  { timer_duration := 30
    reminder_time := 3
    auto_next := true
    show_player_photos := true
    bidding_increment := 1/10 }

/-- The initial value of the `auction_data` global. -/
def initialState : AuctionState :=
  { is_auction_live := false
    current_player := none
    current_bid := 0
    highest_bidder_id := none
    highest_bidder_name := none
    teams := []
    players := []
    available_players := []
    sold_players := []
    unsold_players := []
    auction_history := []
    auction_stats := initialStats
    settings := initialSettings
    timer := none
    timer_reminder_sent := false }

/-- Exact model of Python `round(x, 2)` on exact values: round to the
nearest multiple of 1/100, ties to even (Python's rounding mode). -/
def roundHalfEven (q : ℚ) : ℤ :=
  let f := ⌊q⌋
  let r := q - (f : ℚ)
  if r < 1/2 then f
  else if 1/2 < r then f + 1
  else if f % 2 = 0 then f else f + 1

/-- `round(x, 2)`: round-half-even to two decimal places. -/
def round2 (x : ℚ) : ℚ := ((roundHalfEven (x * 100) : ℤ) : ℚ) / 100

/-- An amount that is an integer number of hundredths (two decimal places),
e.g. any whole-number purse or bid. -/
def Cent (x : ℚ) : Prop := ∃ n : ℤ, x = (n : ℚ) / 100

/-- Sum of the recorded purchase prices of a roster. -/
def sumPrices (l : List RosterEntry) : ℚ := (l.map RosterEntry.purchase_price).sum

/-- The ledger invariant of the spec, checked over every team:
`purse = original_purse - sum(price_paid over roster)`. -/
def ledgerOk (s : AuctionState) : Bool :=
  s.teams.all fun nt => decide (nt.2.purse = nt.2.original_purse - sumPrices nt.2.players)

/-- The captain-to-team lookup loop
`for name, data in auction_data["teams"].items(): if data.get("captain_id") == user_id: ...`
(first match wins). -/
def findTeamByCaptain (teams : List (String × TeamData)) (uid : Nat) :
    Option (String × TeamData) :=
  teams.find? fun nt => decide (nt.2.captain_id = some uid)

/-- In-place mutation of the dict entry holding `td` under key `tname`
(keys are unique, so this touches one entry). -/
def updateTeams (teams : List (String × TeamData)) (tname : String)
    (td : TeamData) : List (String × TeamData) :=
  teams.map fun nt => if nt.1 = tname then (tname, td) else nt

/-- `/register <TeamName> <Purse>` (`register`): rejects a non-positive
purse and a duplicate name, otherwise inserts a fresh team with
`original_purse := purse`. -/
def registerTeam (s : AuctionState) (name : String) (purse : ℚ) : AuctionState :=
  if purse ≤ 0 then s
  else if (s.teams.find? fun nt => decide (nt.1 = name)).isSome then s
  else
    { s with teams := s.teams ++
        [(name, { purse := purse, original_purse := purse, players := [],
                  captain_id := none })] }

/-- `/set_captain <TeamName>` (`set_captain`): unknown team and
already-captain-elsewhere are rejected, otherwise the team's
`captain_id` is set. -/
def setCaptain (s : AuctionState) (teamName : String) (uid : Nat) : AuctionState :=
  match s.teams.find? fun nt => decide (nt.1 = teamName) with
  | none => s
  | some _ =>
    if s.teams.any fun nt => decide (nt.2.captain_id = some uid) then s
    else
      { s with teams := s.teams.map fun nt =>
          if nt.1 = teamName then (nt.1, { nt.2 with captain_id := some uid }) else nt }

/-- `/load_players` (`load_players`): replaces the catalog and repopulates
the available pool with it. -/
def loadPlayers (s : AuctionState) (ps : List Player) : AuctionState :=
  { s with players := ps, available_players := ps }

/-- The scheduling decisions of `start_timer(context, duration)`: the
`timer_reminder` one-shot is queued at `duration - reminder_time` only when
`duration > reminder_time`, the `end_auction` auto-close one-shot at
`duration`. -/
def startTimerJobs (duration reminder_time : Nat) : TimerJobs :=
  { reminder := if reminder_time < duration then some (duration - reminder_time) else none
    autoclose := duration }

/-- `reset_timer()`: removes both pending jobs and clears the
`bidding_timer` deadline and the reminder flag. -/
def resetTimer (s : AuctionState) : AuctionState :=
  { s with timer := none, timer_reminder_sent := false }

/-- The round-clearing block shared by `conclude_auction` and
`skip_player`. -/
def clearRound (s : AuctionState) : AuctionState :=
  { s with is_auction_live := false
           current_player := none
           current_bid := 0
           highest_bidder_id := none
           highest_bidder_name := none }

/-- `start_auction`: no-op while a round is live or when no players are
available; otherwise picks an available player (`random.choice`, modelled
by the index argument), opens the round at the base price, arms the timers
and increments `auction_stats["total_auctions"]`. -/
def startAuction (s : AuctionState) (i : Nat) : AuctionState :=
  if s.is_auction_live then s
  else if s.available_players.isEmpty then s
  else
    let player := s.available_players.getD (i % s.available_players.length)
      { name := "", role := "", base_price := 0 }
    { s with is_auction_live := true
             current_player := some player
             current_bid := player.base_price
             highest_bidder_id := none
             highest_bidder_name := none
             timer := some (startTimerJobs s.settings.timer_duration s.settings.reminder_time)
             timer_reminder_sent := false
             auction_stats :=
               { s.auction_stats with total_auctions := s.auction_stats.total_auctions + 1 } }

/-- The validation failures of the bidding handlers. -/
inductive BidError where
  | NotCaptain
  | RoundNotOpen
  | BidTooLow
  | InsufficientFunds
deriving DecidableEq

/-- What a successful `/bid` emits besides the state change: the previous
leader named in the "has been outbid!" line, when that line is sent. -/
structure BidEvent where
  outbidNotice : Option String
deriving DecidableEq

/-- `/bid <amount>` (`enhanced_bid_command`), after the group-chat check:
captain lookup, live check, `amount < current_bid + increment` check,
`purse < amount` check; on success the bid and leader are updated and both
timers are cancelled and re-armed for the full duration.  Failures leave
the state untouched. -/
def placeBid (s : AuctionState) (userId : Nat) (amount : ℚ) :
    AuctionState × Except BidError BidEvent :=
  match findTeamByCaptain s.teams userId with
  | none => (s, .error .NotCaptain)
  | some (tname, td) =>
    if s.is_auction_live = false then (s, .error .RoundNotOpen)
    else if amount < s.current_bid + s.settings.bidding_increment then (s, .error .BidTooLow)
    else if td.purse < amount then (s, .error .InsufficientFunds)
    else
      ({ s with current_bid := amount
                highest_bidder_id := some userId
                highest_bidder_name := some tname
                timer := some (startTimerJobs s.settings.timer_duration
                  s.settings.reminder_time)
                timer_reminder_sent := false },
       .ok { outbidNotice :=
               match s.highest_bidder_name with
               | some p => if p ≠ "" ∧ p ≠ tname then some p else none
               | none => none })

/-- The `quick_bid_<amount>` branch of `button_callback`: the same captain,
live, amount and purse checks as `/bid`, then the same update and timer
re-arm (this path sends no outbid notice). -/
def quickBid (s : AuctionState) (userId : Nat) (amount : ℚ) :
    AuctionState × Except BidError Unit :=
  match findTeamByCaptain s.teams userId with
  | none => (s, .error .NotCaptain)
  | some (tname, td) =>
    if s.is_auction_live = false then (s, .error .RoundNotOpen)
    else if amount < s.current_bid + s.settings.bidding_increment then (s, .error .BidTooLow)
    else if td.purse < amount then (s, .error .InsufficientFunds)
    else
      ({ s with current_bid := amount
                highest_bidder_id := some userId
                highest_bidder_name := some tname
                timer := some (startTimerJobs s.settings.timer_duration
                  s.settings.reminder_time)
                timer_reminder_sent := false },
       .ok ())

/-- `conclude_auction`: cancels the timers first, then settles.  With a
leading bidder it re-checks the team's funds and returns early
(round untouched apart from the cancelled timers) when the lookup fails or
`purse < bid`; otherwise it appends the roster entry, debits
`round(purse - bid, 2)`, moves the lot to sold, appends the history record
and updates the stats.  With no bidder the lot goes to unsold.  Both
settled branches then clear the round.  `none` models the crash when no
round data is present (`current_player` is `None`); callers guard on
`is_auction_live`.  The auto-advance tail (`auto_next` restarting
`start_auction` after a pause) is a separate `startAuction` step. -/
def concludeAuction (s : AuctionState) : Option AuctionState :=
  let s0 := resetTimer s
  match s0.current_player with
  | none => none
  | some player =>
    match s0.highest_bidder_id with
    | some bidderId =>
      match findTeamByCaptain s0.teams bidderId with
      | none => some s0
      | some (tname, td) =>
        if td.purse < s0.current_bid then some s0
        else
          let entry : RosterEntry :=
            { player := player
              purchase_price := s0.current_bid
              purchased_by := s0.highest_bidder_name
              auction_number := s0.auction_stats.total_auctions }
          let newTd : TeamData :=
            { td with players := td.players ++ [entry]
                      purse := round2 (td.purse - s0.current_bid) }
          let soldList := s0.sold_players ++ [entry]
          let spent := s0.auction_stats.total_amount_spent + s0.current_bid
          let stats1 := { s0.auction_stats with total_amount_spent := spent }
          let stats2 :=
            if stats1.highest_bid < s0.current_bid then
              { stats1 with highest_bid := s0.current_bid
                            most_expensive_player := some entry }
            else stats1
          let stats3 :=
            if 0 < soldList.length then
              { stats2 with average_price := spent / (soldList.length : ℚ) }
            else stats2
          some (clearRound
            { s0 with teams := updateTeams s0.teams tname newTd
                      available_players := s0.available_players.erase player
                      sold_players := soldList
                      auction_history := s0.auction_history ++
                        [{ player := player.name
                           price := s0.current_bid
                           team := s0.highest_bidder_name
                           status := "Sold" }]
                      auction_stats := stats3 })
    | none =>
      some (clearRound
        { s0 with available_players := s0.available_players.erase player
                  unsold_players := s0.unsold_players ++ [player]
                  auction_history := s0.auction_history ++
                    [{ player := player.name
                       price := 0
                       team := some "N/A"
                       status := "Unsold" }] })

/-- The `end_auction` job callback (`end_bid_automatically`): concludes
only when a round is live, otherwise does nothing. -/
def endBidAutomatically (s : AuctionState) : Option AuctionState :=
  if s.is_auction_live then concludeAuction s else some s

/-- `/skip` (`skip_player`), after the admin check: with no live round the
handler only replies; otherwise the lot is recorded as skipped and moved
to unsold and the round is cleared with the timers cancelled. -/
def skipPlayer (s : AuctionState) : Option AuctionState :=
  if s.is_auction_live = false then some s
  else
    match s.current_player with
    | none => none
    | some player =>
      let skipRec : HistoryRecord :=
        { player := player.name, price := 0, team := some "N/A", status := "Skipped" }
      some (resetTimer (clearRound
        { s with auction_history := s.auction_history ++ [skipRec]
                 unsold_players := s.unsold_players ++ [player]
                 available_players := s.available_players.erase player }))

/-- The `confirm_reset` branch of `button_callback`, after the admin check:
cancel timers, wipe the live-round fields, history, sold/unsold and stats,
restore every purse to `original_purse` with an empty roster, and
repopulate the available pool from the full catalog. -/
def confirmReset (s : AuctionState) : AuctionState :=
  let s0 := resetTimer s
  { s0 with is_auction_live := false
            current_player := none
            current_bid := 0
            highest_bidder_id := none
            highest_bidder_name := none
            sold_players := []
            unsold_players := []
            auction_history := []
            auction_stats := initialStats
            teams := s0.teams.map fun nt =>
              (nt.1, { nt.2 with purse := nt.2.original_purse, players := [] })
            available_players := s0.players }

/-! ### Helper lemmas -/

/-- Differences of two-decimal amounts are two-decimal amounts. -/
theorem Cent.sub {x y : ℚ} (hx : Cent x) (hy : Cent y) : Cent (x - y) := by
  obtain ⟨n, rfl⟩ := hx
  obtain ⟨m, rfl⟩ := hy
  exact ⟨n - m, by push_cast; ring⟩

/-- On amounts with at most two decimal places, `round(x, 2)` is the
identity. -/
theorem round2_eq_of_cent {x : ℚ} (h : Cent x) : round2 x = x := by
  obtain ⟨n, rfl⟩ := h
  have h1 : (n : ℚ) / 100 * 100 = (n : ℚ) := by field_simp
  simp only [round2, roundHalfEven, h1, Int.floor_intCast, sub_self]
  norm_num

/-! ### Claim theorems -/

/-- Claim C1: once the state is back to idle (`is_auction_live = False`),
a delivered auto-close trigger (`end_bid_automatically`) is a silent no-op:
the state is returned unchanged, so no second settlement, history record
or debit can occur. -/
theorem c1_idle_timeout_noop (s : AuctionState) (h : s.is_auction_live = false) :
    endBidAutomatically s = some s := by
  simp [endBidAutomatically, h]

/-- Claim C1 witness: the no-op on the concrete initial (idle) state. -/
theorem c1_idle_timeout_noop_witness :
    initialState.is_auction_live = false ∧
      endBidAutomatically initialState = some initialState :=
  ⟨rfl, c1_idle_timeout_noop initialState rfl⟩

/-- Claim C6: the confirmed reset restores every purse to its
`original_purse`, empties every roster, clears history, resets the stats
to their zero/empty literals, empties the sold and unsold sets and
repopulates the available pool from the full catalog, from any prior
state. -/
theorem c6_reset_restores (s : AuctionState) :
    (∀ nt ∈ (confirmReset s).teams,
        nt.2.purse = nt.2.original_purse ∧ nt.2.players = []) ∧
      (confirmReset s).auction_history = [] ∧
      (confirmReset s).auction_stats = initialStats ∧
      (confirmReset s).sold_players = [] ∧
      (confirmReset s).unsold_players = [] ∧
      (confirmReset s).available_players = s.players := by
  refine ⟨?_, rfl, rfl, rfl, rfl, rfl⟩
  intro nt h
  simp only [confirmReset, resetTimer, List.mem_map] at h
  obtain ⟨a, _, rfl⟩ := h
  exact ⟨rfl, rfl⟩

/-- Claim C6 witness: the reset conclusions evaluated on a concrete
state. -/
theorem c6_reset_restores_witness :
    (confirmReset initialState).auction_history = [] ∧
      (confirmReset initialState).available_players = initialState.players :=
  ⟨(c6_reset_restores initialState).2.1,
   (c6_reset_restores initialState).2.2.2.2.2⟩

/-- A concrete live-round state with a non-empty history, used for the
reset-while-live claims. -/
def pA : Player := { name := "A", role := "Bat", base_price := 100 }

def w7 : AuctionState :=
  { initialState with
      is_auction_live := true
      current_player := some pA
      current_bid := 100
      auction_history :=
        [{ player := "B", price := 50, team := some "Kings", status := "Sold" }]
      timer := some (startTimerJobs 30 3) }

/-- Claim C7 counterexample: `confirm_reset` has no idle-state guard.  From
a live round (`w7`) the reset does not fail with `RoundInProgress` (no such
error path exists in `button_callback`); it proceeds, clears the live round
and wipes the non-empty history. -/
theorem c7_counterexample :
    w7.is_auction_live = true ∧ w7.auction_history ≠ [] ∧
      (confirmReset w7).auction_history = [] ∧
      (confirmReset w7).is_auction_live = false := by
  refine ⟨rfl, ?_, rfl, rfl⟩
  simp [w7]

/-- Claim C7 (amended): reset is accepted from any state; in particular,
when a round is live it clears the live round, cancels its timers and
wipes the history rather than failing. -/
theorem c7_reset_ignores_live_round (s : AuctionState)
    (_h : s.is_auction_live = true) :
    (confirmReset s).is_auction_live = false ∧
      (confirmReset s).current_player = none ∧
      (confirmReset s).timer = none ∧
      (confirmReset s).auction_history = [] :=
  ⟨rfl, rfl, rfl, rfl⟩

/-- Claim C7 witness: the amended behaviour on the concrete live state. -/
theorem c7_reset_ignores_live_round_witness :
    w7.is_auction_live = true ∧ (confirmReset w7).is_auction_live = false :=
  ⟨rfl, (c7_reset_ignores_live_round w7 rfl).1⟩

/-- Claim C9 counterexample: with the round window equal to the reminder
lead (both 3 seconds—reachable, e.g. timer 10 with reminder 10 via
`/settings`), `start_timer` does **not** arm the reminder: the guard is the
strict `duration > reminder_time`. -/
theorem c9_counterexample : (startTimerJobs 3 3).reminder = none := rfl

/-- Claim C9 (amended): the reminder one-shot is armed iff the round
duration strictly exceeds the reminder lead (so it is skipped when the
window is shorter than **or equal to** the lead); when armed it is queued
at `duration - reminder_time`, i.e. it fires the reminder lead before the
deadline, and the auto-close one-shot is queued at the deadline. -/
theorem c9_reminder_arming (d rt : Nat) :
    ((startTimerJobs d rt).reminder.isSome = true ↔ rt < d) ∧
      (∀ x, (startTimerJobs d rt).reminder = some x → x = d - rt) ∧
      (startTimerJobs d rt).autoclose = d := by
  by_cases h : rt < d <;> simp [startTimerJobs, h]

/-- Claim C9 witness: the default settings (duration 30, lead 3) arm the
reminder. -/
theorem c9_reminder_arming_witness :
    3 < 30 ∧ (startTimerJobs 30 3).reminder.isSome = true :=
  ⟨by decide, (c9_reminder_arming 30 3).1.mpr (by decide)⟩

/-- Claim C4: given the actor's team, `/bid` fails with `RoundNotOpen`
when no round is live; fails with `BidTooLow` exactly when
`amount < current_bid + bidding_increment`; fails with `InsufficientFunds`
exactly when `amount > purse` (so `amount = purse` and
`amount = current_bid + increment` are accepted); every failure returns
the state unchanged. -/
theorem c4_placebid_validation (s : AuctionState) (uid : Nat) (a : ℚ)
    (tn : String) (td : TeamData)
    (hf : findTeamByCaptain s.teams uid = some (tn, td)) :
    (s.is_auction_live = false → placeBid s uid a = (s, .error .RoundNotOpen)) ∧
      (s.is_auction_live = true →
        a < s.current_bid + s.settings.bidding_increment →
        placeBid s uid a = (s, .error .BidTooLow)) ∧
      (s.is_auction_live = true →
        s.current_bid + s.settings.bidding_increment ≤ a → td.purse < a →
        placeBid s uid a = (s, .error .InsufficientFunds)) ∧
      (s.is_auction_live = true →
        s.current_bid + s.settings.bidding_increment ≤ a → a ≤ td.purse →
        (placeBid s uid a).2.isOk = true ∧ (placeBid s uid a).1.current_bid = a) := by
  refine ⟨?_, ?_, ?_, ?_⟩
  · intro h1
    simp [placeBid, hf, h1]
  · intro h1 h2
    simp [placeBid, hf, h1, h2]
  · intro h1 h2 h3
    simp [placeBid, hf, h1, not_lt.mpr h2, h3]
  · intro h1 h2 h3
    constructor <;>
      simp [placeBid, hf, h1, not_lt.mpr h2, not_lt.mpr h3, Except.isOk, Except.toBool]

/-- A concrete state with one registered team (captain 7, purse 1000) and
a live round on `pA` at current bid 100, used as a witness input for the
bid-path claims. -/
def wBid : AuctionState :=
  { initialState with
      is_auction_live := true
      current_player := some pA
      current_bid := 100
      teams := [("Kings",
        { purse := 1000, original_purse := 1000, players := [], captain_id := some 7 })]
      players := [pA]
      available_players := [pA]
      timer := some (startTimerJobs 30 3) }

/-- Claim C4 witness: on `wBid`, captain 7's bid of 100 (below
`current_bid + increment`) is rejected with `BidTooLow` and the state is
unchanged. -/
theorem c4_placebid_validation_witness :
    wBid.is_auction_live = true ∧
      placeBid wBid 7 100 = (wBid, .error .BidTooLow) := by
  refine ⟨rfl, ?_⟩
  refine (c4_placebid_validation wBid 7 100 "Kings"
    { purse := 1000, original_purse := 1000, players := [], captain_id := some 7 }
    rfl).2.1 rfl ?_
  norm_num [wBid, initialState, initialSettings]

/-- Claim C3: whenever a bid is accepted—on the `/bid` path or the
quick-bid button path—the current bid strictly increases (the accepted
amount is at least `current_bid + increment`, and the configured increment
is positive), and the team that becomes the leading team has
`purse ≥ current_bid` at the moment of acceptance. -/
theorem c3_accepted_bids_monotone_funded (s : AuctionState) (uid : Nat) (a : ℚ)
    (hinc : 0 < s.settings.bidding_increment) :
    (∀ s₁ ev, placeBid s uid a = (s₁, Except.ok ev) →
      s.current_bid < s₁.current_bid ∧
        ∃ tn td, findTeamByCaptain s.teams uid = some (tn, td) ∧
          s₁.highest_bidder_name = some tn ∧ s₁.current_bid ≤ td.purse) ∧
      (∀ s₁ u, quickBid s uid a = (s₁, Except.ok u) →
        s.current_bid < s₁.current_bid ∧
          ∃ tn td, findTeamByCaptain s.teams uid = some (tn, td) ∧
            s₁.highest_bidder_name = some tn ∧ s₁.current_bid ≤ td.purse) := by
  constructor
  · intro s₁ ev h
    cases hft : findTeamByCaptain s.teams uid with
    | none => simp [placeBid, hft] at h
    | some nt =>
      obtain ⟨tn, td⟩ := nt
      by_cases h1 : s.is_auction_live = false
      · simp [placeBid, hft, h1] at h
      · by_cases h2 : a < s.current_bid + s.settings.bidding_increment
        · simp [placeBid, hft, h1, h2] at h
        · by_cases h3 : td.purse < a
          · simp [placeBid, hft, h1, h2, h3] at h
          · simp only [placeBid, hft, if_neg h1, if_neg h2, if_neg h3,
              Prod.mk.injEq] at h
            obtain ⟨h4, -⟩ := h
            subst h4
            refine ⟨?_, tn, td, rfl, rfl, not_lt.mp h3⟩
            calc s.current_bid
                < s.current_bid + s.settings.bidding_increment :=
                  lt_add_of_pos_right _ hinc
              _ ≤ a := not_lt.mp h2
  · intro s₁ u h
    cases hft : findTeamByCaptain s.teams uid with
    | none => simp [quickBid, hft] at h
    | some nt =>
      obtain ⟨tn, td⟩ := nt
      by_cases h1 : s.is_auction_live = false
      · simp [quickBid, hft, h1] at h
      · by_cases h2 : a < s.current_bid + s.settings.bidding_increment
        · simp [quickBid, hft, h1, h2] at h
        · by_cases h3 : td.purse < a
          · simp [quickBid, hft, h1, h2, h3] at h
          · simp only [quickBid, hft, if_neg h1, if_neg h2, if_neg h3,
              Prod.mk.injEq] at h
            obtain ⟨h4, -⟩ := h
            subst h4
            refine ⟨?_, tn, td, rfl, rfl, not_lt.mp h3⟩
            calc s.current_bid
                < s.current_bid + s.settings.bidding_increment :=
                  lt_add_of_pos_right _ hinc
              _ ≤ a := not_lt.mp h2

/-- Claim C3 witness: on `wBid` (increment 0.1), an accepted bid of 105 by
captain 7 strictly raises the current bid. -/
theorem c3_accepted_bids_monotone_funded_witness :
    0 < wBid.settings.bidding_increment ∧
      wBid.current_bid < (placeBid wBid 7 105).1.current_bid := by
  have hinc : 0 < wBid.settings.bidding_increment := by
    norm_num [wBid, initialState, initialSettings]
  have hok : placeBid wBid 7 105 =
      ((placeBid wBid 7 105).1, Except.ok { outbidNotice := none }) := by
    norm_num [placeBid, wBid, initialState, initialSettings, findTeamByCaptain]
  exact ⟨hinc,
    ((c3_accepted_bids_monotone_funded wBid 7 105 hinc).1 _ _ hok).1⟩

/-- Claim C10: when the currently leading team itself places a further bid
that passes the amount and funds checks, the bid is accepted, the current
bid becomes the new amount, the same team stays the leading team, and no
outbid notification naming a previous leader is sent (the "has been
outbid" line requires the previous leader's name to differ). -/
theorem c10_self_outbid_allowed (s : AuctionState) (uid : Nat) (a : ℚ)
    (tn : String) (td : TeamData)
    (hf : findTeamByCaptain s.teams uid = some (tn, td))
    (hlead : s.highest_bidder_name = some tn)
    (hlive : s.is_auction_live = true)
    (hamt : s.current_bid + s.settings.bidding_increment ≤ a)
    (hfund : a ≤ td.purse) :
    (placeBid s uid a).2 = Except.ok { outbidNotice := none } ∧
      (placeBid s uid a).1.current_bid = a ∧
      (placeBid s uid a).1.highest_bidder_name = some tn := by
  have h1 : ¬ (s.is_auction_live = false) := by simp [hlive]
  have h2 : ¬ (a < s.current_bid + s.settings.bidding_increment) := not_lt.mpr hamt
  have h3 : ¬ (td.purse < a) := not_lt.mpr hfund
  refine ⟨?_, ?_, ?_⟩ <;>
    simp [placeBid, hf, if_neg h1, if_neg h2, if_neg h3, hlead]

/-- Claim C10 witness: on `wBid` with Kings already leading, Kings rebids
110; the bid is accepted with no outbid notice. -/
theorem c10_self_outbid_allowed_witness :
    (placeBid { wBid with highest_bidder_name := some "Kings" } 7 110).2 =
      Except.ok { outbidNotice := none } := by
  refine (c10_self_outbid_allowed
    { wBid with highest_bidder_name := some "Kings" } 7 110 "Kings"
    { purse := 1000, original_purse := 1000, players := [], captain_id := some 7 }
    rfl rfl rfl ?_ ?_).1 <;>
    norm_num [wBid, initialState, initialSettings]

/-- Claim C5: at settlement with a leading bidder whose looked-up team
fails the defensive funds re-check (`purse < bid`), `conclude_auction`
returns early: no purse is debited, no roster entry, sold entry or history
record is appended, the lot stays in the available pool, and the round
fields—including `is_auction_live`—are left as they were (only the timers
were cancelled), so a live round stays `OPEN`. -/
theorem c5_settlement_recheck_preserves (s : AuctionState) (p : Player)
    (b : Nat) (tn : String) (td : TeamData)
    (hp : s.current_player = some p)
    (hb : s.highest_bidder_id = some b)
    (hf : findTeamByCaptain s.teams b = some (tn, td))
    (hlt : td.purse < s.current_bid) :
    concludeAuction s = some (resetTimer s) ∧
      (resetTimer s).teams = s.teams ∧
      (resetTimer s).auction_history = s.auction_history ∧
      (resetTimer s).available_players = s.available_players ∧
      (resetTimer s).sold_players = s.sold_players ∧
      (resetTimer s).unsold_players = s.unsold_players ∧
      (resetTimer s).auction_stats = s.auction_stats ∧
      (resetTimer s).is_auction_live = s.is_auction_live ∧
      (resetTimer s).current_player = s.current_player ∧
      (resetTimer s).current_bid = s.current_bid := by
  refine ⟨?_, rfl, rfl, rfl, rfl, rfl, rfl, rfl, rfl, rfl⟩
  simp [concludeAuction, resetTimer, hp, hb, hf, hlt]

/-- A concrete state whose leading bid (2000) exceeds the leading team's
purse (1000), exercising the settlement re-check. -/
def w5 : AuctionState :=
  { wBid with
      current_bid := 2000
      highest_bidder_id := some 7
      highest_bidder_name := some "Kings" }

/-- Claim C5 witness: the early return on the concrete state `w5`. -/
theorem c5_settlement_recheck_preserves_witness :
    concludeAuction w5 = some (resetTimer w5) ∧
      (resetTimer w5).is_auction_live = w5.is_auction_live := by
  refine ⟨?_, ?_⟩
  · refine (c5_settlement_recheck_preserves w5 pA 7 "Kings"
      { purse := 1000, original_purse := 1000, players := [], captain_id := some 7 }
      rfl rfl rfl ?_).1
    norm_num [w5, wBid, initialState]
  · exact (c5_settlement_recheck_preserves w5 pA 7 "Kings"
      { purse := 1000, original_purse := 1000, players := [], captain_id := some 7 }
      rfl rfl rfl (by norm_num [w5, wBid, initialState])).2.2.2.2.2.2.2.1

/-- Appending one roster entry adds its price to the roster sum. -/
theorem sumPrices_append_single (l : List RosterEntry) (e : RosterEntry) :
    sumPrices (l ++ [e]) = sumPrices l + e.purchase_price := by
  simp [sumPrices]

/-- Claim C2 (amended): the exact ledger invariant
`purse = original_purse - sum(roster prices)` is preserved by settlement
**provided** every purse and the winning bid are amounts with at most two
decimal places (then the `round(purse - bid, 2)` debit is exact).  Without
that proviso the rounding breaks exactness (see the counterexample). -/
theorem c2_ledger_invariant_cent (s s' : AuctionState)
    (hinv : ∀ nt ∈ s.teams, nt.2.purse = nt.2.original_purse - sumPrices nt.2.players)
    (hcent : ∀ nt ∈ s.teams, Cent nt.2.purse)
    (hbid : Cent s.current_bid)
    (hc : concludeAuction s = some s') :
    ∀ nt ∈ s'.teams, nt.2.purse = nt.2.original_purse - sumPrices nt.2.players := by
  cases hp : s.current_player with
  | none => simp [concludeAuction, resetTimer, hp] at hc
  | some player =>
    cases hb : s.highest_bidder_id with
    | none =>
      simp only [concludeAuction, resetTimer, hp, hb, Option.some.injEq] at hc
      subst hc
      simpa [clearRound] using hinv
    | some b =>
      cases hft : findTeamByCaptain s.teams b with
      | none =>
        simp only [concludeAuction, resetTimer, hp, hb, hft, Option.some.injEq] at hc
        subst hc
        simpa using hinv
      | some nt₀ =>
        obtain ⟨tn, td⟩ := nt₀
        by_cases hlt : td.purse < s.current_bid
        · simp only [concludeAuction, resetTimer, hp, hb, hft, if_pos hlt,
            Option.some.injEq] at hc
          subst hc
          simpa using hinv
        · simp only [concludeAuction, resetTimer, hp, hb, hft, if_neg hlt,
            Option.some.injEq] at hc
          subst hc
          intro nt hmem
          simp only [clearRound, updateTeams, List.mem_map] at hmem
          obtain ⟨a, ha, rfl⟩ := hmem
          by_cases hname : a.1 = tn
          · have hmemtd : (tn, td) ∈ s.teams := List.mem_of_find?_eq_some hft
            have h1 := hinv _ hmemtd
            have h2 := hcent _ hmemtd
            have h3 : round2 (td.purse - s.current_bid) = td.purse - s.current_bid :=
              round2_eq_of_cent (h2.sub hbid)
            simp only [if_pos hname, sumPrices_append_single, h3]
            rw [h1]
            ring
          · simpa only [if_neg hname] using hinv a ha

/-- The winning roster entry of the C2 counterexample sale: lot `pA`
bought by Kings for 100.125 in round 1. -/
def c2entry : RosterEntry :=
  { player := pA
    purchase_price := 801/8
    purchased_by := some "Kings"
    auction_number := 1 }

/-- The state reached from `initialState` by registering Kings (purse
1000, captain 7), loading the one-lot catalog `[pA]`, starting the round
and accepting Kings' bid of 100.125. -/
def c2s5lit : AuctionState :=
  { is_auction_live := true
    current_player := some pA
    current_bid := 801/8
    highest_bidder_id := some 7
    highest_bidder_name := some "Kings"
    teams := [("Kings",
      { purse := 1000, original_purse := 1000, players := [], captain_id := some 7 })]
    players := [pA]
    available_players := [pA]
    sold_players := []
    unsold_players := []
    auction_history := []
    auction_stats := { initialStats with total_auctions := 1 }
    settings := initialSettings
    timer := some { reminder := some 27, autoclose := 30 }
    timer_reminder_sent := false }

/-- The history record of the counterexample sale. -/
def c2hist : HistoryRecord :=
  { player := "A", price := 801/8, team := some "Kings", status := "Sold" }

/-- The settled state: Kings' purse was debited with
`round(1000 - 100.125, 2) = 899.88 = 22497/25`, not the exact
`899.875 = 7199/8`. -/
def c2s6lit : AuctionState :=
  { is_auction_live := false
    current_player := none
    current_bid := 0
    highest_bidder_id := none
    highest_bidder_name := none
    teams := [("Kings",
      { purse := 22497/25, original_purse := 1000, players := [c2entry],
        captain_id := some 7 })]
    players := [pA]
    available_players := []
    sold_players := [c2entry]
    unsold_players := []
    auction_history := [c2hist]
    auction_stats :=
      { total_auctions := 1
        total_amount_spent := 801/8
        highest_bid := 801/8
        most_expensive_player := some c2entry
        average_price := 801/8 }
    settings := initialSettings
    timer := none
    timer_reminder_sent := false }

/-- The debit of the counterexample sale, rounded half-to-even at the
third decimal: `round(899.875, 2) = 899.88`. -/
theorem round2_c2_debit : round2 (1000 - 801/8) = 22497/25 := by
  have h1 : ((1000 - 801/8 : ℚ)) * 100 = 179975/2 := by norm_num
  have hf : ⌊(179975 : ℚ)/2⌋ = 89987 := by
    rw [Int.floor_eq_iff]
    norm_num
  simp only [round2, roundHalfEven, h1, hf]
  norm_num

/-- Claim C2 counterexample: from the clean initial state, register Kings
with purse 1000 and captain 7, load the catalog `[pA]` (base price 100),
start the round, let Kings bid 100.125 (it passes the `current_bid +
increment` and purse checks), and settle.  The debit is rounded to two
decimals, so afterwards Kings' purse `899.88` differs from
`original_purse - sum(roster prices) = 899.875`: the exact ledger
invariant fails on a reachable post-settlement state. -/
theorem c2_counterexample :
    (placeBid (startAuction (loadPlayers (setCaptain (registerTeam
        initialState "Kings" 1000) "Kings" 7) [pA]) 0) 7 (801/8)).1 = c2s5lit ∧
      concludeAuction c2s5lit = some c2s6lit ∧
      ledgerOk c2s5lit = true ∧
      ledgerOk c2s6lit = false := by
  have f1 : ¬ ((1000 : ℚ) ≤ 0) := by norm_num
  have f2 : ¬ ((801/8 : ℚ) < 100 + (10:ℚ)⁻¹) := by norm_num
  have f3 : ¬ ((1000 : ℚ) < 801/8) := by norm_num
  have f4 : (0 : ℚ) < 801/8 := by norm_num
  have f5 : ¬ ((22497/25 : ℚ) = 1000 - 801/8) := by norm_num
  refine ⟨?_, ?_, ?_, ?_⟩
  · simp [registerTeam, setCaptain, loadPlayers, startAuction, placeBid,
      findTeamByCaptain, startTimerJobs, initialState, initialStats,
      initialSettings, pA, c2s5lit, f1, f2, f3]
  · simp [concludeAuction, resetTimer, clearRound, updateTeams,
      findTeamByCaptain, round2_c2_debit, c2s5lit, c2s6lit, c2entry, c2hist,
      pA, initialStats, initialSettings, f3, f4]
  · simp [ledgerOk, sumPrices, c2s5lit, initialStats, initialSettings]
  · simp [ledgerOk, sumPrices, c2s6lit, c2entry, initialSettings, f5]

/-- A valid sale on `wBid`: Kings (captain 7) leading at a whole-number
bid of 105. -/
def w2 : AuctionState :=
  { wBid with
      current_bid := 105
      highest_bidder_id := some 7
      highest_bidder_name := some "Kings" }

/-- The roster entry of the `w2` sale. -/
def w2entry : RosterEntry :=
  { player := pA, purchase_price := 105, purchased_by := some "Kings",
    auction_number := 0 }

/-- The history record of the `w2` sale. -/
def w2hist : HistoryRecord :=
  { player := "A", price := 105, team := some "Kings", status := "Sold" }

/-- Kings' ledger row after the `w2` sale: `round(1000 - 105, 2) = 895`. -/
def w2KingsTd : TeamData :=
  { purse := 895, original_purse := 1000, players := [w2entry], captain_id := some 7 }

/-- The settled state of the `w2` sale. -/
def w2lit : AuctionState :=
  { is_auction_live := false
    current_player := none
    current_bid := 0
    highest_bidder_id := none
    highest_bidder_name := none
    teams := [("Kings", w2KingsTd)]
    players := [pA]
    available_players := []
    sold_players := [w2entry]
    unsold_players := []
    auction_history := [w2hist]
    auction_stats :=
      { total_auctions := 0
        total_amount_spent := 105
        highest_bid := 105
        most_expensive_player := some w2entry
        average_price := 105 }
    settings := initialSettings
    timer := none
    timer_reminder_sent := false }

/-- On a whole-number debit the rounding is exact. -/
theorem round2_w2_debit : round2 (1000 - 105) = 895 := by
  have h : Cent ((1000 : ℚ) - 105) := ⟨89500, by norm_num⟩
  rw [round2_eq_of_cent h]
  norm_num

/-- Evaluation of the settlement of the `w2` sale. -/
theorem w2_conclude_eval : concludeAuction w2 = some w2lit := by
  have f3 : ¬ ((1000 : ℚ) < 105) := by norm_num
  have f4 : (0 : ℚ) < 105 := by norm_num
  simp [concludeAuction, resetTimer, clearRound, updateTeams, findTeamByCaptain,
    round2_w2_debit, w2, wBid, initialState, initialStats, initialSettings, pA,
    w2lit, w2KingsTd, w2entry, w2hist, f3, f4]

/-- Claim C2 witness: the amended ledger invariant applied to the concrete
whole-number sale `w2` (bid 105 out of purse 1000): Kings' post-settlement
row satisfies `purse = original_purse - sum(roster prices)`. -/
theorem c2_ledger_invariant_cent_witness :
    Cent w2.current_bid ∧
      w2KingsTd.purse = w2KingsTd.original_purse - sumPrices w2KingsTd.players := by
  constructor
  · exact ⟨10500, by norm_num [w2]⟩
  · refine c2_ledger_invariant_cent w2 w2lit ?_ ?_ ⟨10500, by norm_num [w2]⟩
      w2_conclude_eval ("Kings", w2KingsTd) ?_
    · intro nt h
      simp only [w2, wBid, initialState, List.mem_singleton] at h
      subst h
      norm_num [sumPrices]
    · intro nt h
      simp only [w2, wBid, initialState, List.mem_singleton] at h
      subst h
      exact ⟨100000, by norm_num⟩
    · simp [w2lit]

/-- An idle state with one team and the one-lot catalog `[pA]`, from which
a round can be started. -/
def w8start : AuctionState :=
  { initialState with
      teams := [("Kings",
        { purse := 1000, original_purse := 1000, players := [], captain_id := some 7 })]
      players := [pA]
      available_players := [pA] }

/-- Claim C8 counterexample: the settlement of the `w2` sale appends one
history record but leaves `total_auctions` unchanged—settlement does not
increment the round count—while `start_auction` from the idle `w8start`
increments the round count to 1 with zero settlements in the history, so
the round count does not equal the number of settlements performed. -/
theorem c8_counterexample :
    concludeAuction w2 = some w2lit ∧
      w2lit.auction_history.length = w2.auction_history.length + 1 ∧
      w2lit.auction_stats.total_auctions = w2.auction_stats.total_auctions ∧
      (startAuction w8start 0).auction_stats.total_auctions = 1 ∧
      (startAuction w8start 0).auction_history = [] :=
  ⟨w2_conclude_eval, rfl, rfl, rfl, rfl⟩

/-- Claim C8 (amended): the round count `total_auctions` is incremented by
`start_auction` when it opens a round, and settlement never changes it (so
it counts rounds started, not settlements); a sold settlement adds the
sale price to the total spend, sets the maximum sale to
`max highest_bid price` and recomputes the running average over the sold
list; an unsold settlement leaves the total spend unchanged. -/
theorem c8_stats_updates :
    (∀ s i, s.is_auction_live = false → s.available_players ≠ [] →
      (startAuction s i).auction_stats.total_auctions
        = s.auction_stats.total_auctions + 1) ∧
      (∀ s s₁, concludeAuction s = some s₁ →
        s₁.auction_stats.total_auctions = s.auction_stats.total_auctions) ∧
      (∀ s s₁ p b tn td,
        s.current_player = some p → s.highest_bidder_id = some b →
        findTeamByCaptain s.teams b = some (tn, td) →
        ¬ td.purse < s.current_bid → concludeAuction s = some s₁ →
          s₁.auction_stats.total_amount_spent
              = s.auction_stats.total_amount_spent + s.current_bid ∧
            s₁.auction_stats.highest_bid
              = max s.auction_stats.highest_bid s.current_bid ∧
            s₁.auction_stats.average_price
              = (s.auction_stats.total_amount_spent + s.current_bid)
                  / ((s.sold_players.length + 1 : ℕ) : ℚ)) ∧
      (∀ s s₁ p, s.current_player = some p → s.highest_bidder_id = none →
        concludeAuction s = some s₁ →
          s₁.auction_stats.total_amount_spent
            = s.auction_stats.total_amount_spent) := by
  refine ⟨?_, ?_, ?_, ?_⟩
  · intro s i h1 h2
    have h3 : s.available_players.isEmpty = false := by
      cases hA : s.available_players with
      | nil => exact absurd hA h2
      | cons a l => rfl
    simp [startAuction, h1, h3]
  · intro s s₁ hc
    cases hp : s.current_player with
    | none => simp [concludeAuction, resetTimer, hp] at hc
    | some p =>
      cases hb : s.highest_bidder_id with
      | none =>
        simp only [concludeAuction, resetTimer, hp, hb, Option.some.injEq] at hc
        subst hc
        simp [clearRound]
      | some b =>
        cases hft : findTeamByCaptain s.teams b with
        | none =>
          simp only [concludeAuction, resetTimer, hp, hb, hft,
            Option.some.injEq] at hc
          subst hc
          simp
        | some nt₀ =>
          obtain ⟨tn, td⟩ := nt₀
          by_cases hlt : td.purse < s.current_bid
          · simp only [concludeAuction, resetTimer, hp, hb, hft, if_pos hlt,
              Option.some.injEq] at hc
            subst hc
            simp
          · simp only [concludeAuction, resetTimer, hp, hb, hft, if_neg hlt,
              Option.some.injEq] at hc
            subst hc
            simp [clearRound, apply_ite Stats.total_auctions]
  · intro s s₁ p b tn td hp hb hft hlt hc
    simp only [concludeAuction, resetTimer, hp, hb, hft, if_neg hlt,
      Option.some.injEq] at hc
    subst hc
    refine ⟨?_, ?_, ?_⟩
    · simp [clearRound, apply_ite Stats.total_amount_spent]
    · by_cases hm : s.auction_stats.highest_bid < s.current_bid
      · simp [clearRound, apply_ite Stats.highest_bid, hm, max_eq_right hm.le]
      · simp [clearRound, apply_ite Stats.highest_bid, hm,
          max_eq_left (not_lt.mp hm)]
    · simp [clearRound, apply_ite Stats.average_price, List.length_append]
  · intro s s₁ p hp hb hc
    simp only [concludeAuction, resetTimer, hp, hb, Option.some.injEq] at hc
    subst hc
    simp [clearRound]

/-- Claim C8 witness: starting a round from the idle `w8start` increments
the round count. -/
theorem c8_stats_updates_witness :
    w8start.is_auction_live = false ∧
      (startAuction w8start 0).auction_stats.total_auctions
        = w8start.auction_stats.total_auctions + 1 := by
  refine ⟨rfl, c8_stats_updates.1 w8start 0 rfl ?_⟩
  simp [w8start, initialState]

end Auction
